import Mathlib

/-!
Verification of the NanoLeaf display usermod
(src/usermods/NanoLeaf_Display/usermod_nanoleaf_display.h).

The development is a shallow embedding of the usermod: C ints become Int
(with truncated division Int.tdiv / Int.tmod where the source divides),
segment sizes and indices that are always non-negative become Nat, the
host strip is modelled by the list of wiring operations the usermod issues
to it, and per-segment display state is an explicit function from segment
index to a Segment record. Times from millis are modelled as Nat
milliseconds, using that the stored last-read stamp never exceeds the
current time (both come from the same monotonic counter; counter
wraparound is outside the model).
-/

namespace NanoLeafDisplay

/-- Number of total segments the whole display contains (source constant). -/
def NUM_OF_SEGMENTS : Nat := 28

/-- Number of addressable LEDs (ICs) per segment (source constant). -/
def ADDR_LEDS_PER_SEG : Nat := 3

/-- Number of segments that make up 1 digit (source constant). -/
def SEGS_PER_DIGIT : Nat := 7

/-- Number of digits each 7 segment digit can display, 0-9 (source constant). -/
def NUM_DIGITS : Nat := 10

/-- Number of first addressable LEDs which are only used to set colours (source constant). -/
def NUM_FIRST_LEDS : Nat := 3

/-- The written initializer rows of the C array DIGITS[NUM_DIGITS][NUM_OF_SEGMENTS]:
for each digit value, the segment offsets to turn off, terminated by -1 entries. -/
def DIGITS_rows : List (List Int) := [
  [3, -1, -1, -1, -1, -1, -1],
  [1, 2, 3, 5, 6, -1, -1],
  [0, 6, -1, -1, -1, -1, -1],
  [2, 6, -1, -1, -1, -1, -1],
  [1, 2, 5, -1, -1, -1, -1],
  [2, 4, -1, -1, -1, -1, -1],
  [4, -1, -1, -1, -1, -1, -1],
  [1, 2, 3, 6, -1, -1, -1],
  [-1, -1, -1, -1, -1, -1, -1],
  [2, -1, -1, -1, -1, -1, -1]]

/-- The C array DIGITS as stored: aggregate initialization pads each written
row with zeros up to its declared width NUM_OF_SEGMENTS = 28. -/
def DIGITS : List (List Int) :=
  DIGITS_rows.map (fun row => row ++ List.replicate (NUM_OF_SEGMENTS - row.length) 0)

/-- The scan the setDigit loop performs over one row of DIGITS: it reads at
most `fuel` entries in order and stops at the first -1 sentinel, returning the
entries read before it. -/
def scanRow : Nat → List Int → List Int
  | 0, _ => []
  | _ + 1, [] => []
  | fuel + 1, x :: xs => if x = -1 then [] else x :: scanRow fuel xs

/-- Segment offsets that setDigit blanks for a digit value: the entries of row
DIGITS[value] before the first -1, with the loop bound NUM_DIGITS = 10 of the
source (the spec calls this map segmentsToBlank). -/
def segmentsToBlank (value : Nat) : List Int :=
  scanRow NUM_DIGITS (DIGITS.getD value [])

/-- Per-digit segment base index computed by setDigit:
NUM_OF_SEGMENTS - (SEGS_PER_DIGIT + digit * SEGS_PER_DIGIT) over C ints. -/
def digitIndexOf (digit : Int) : Int :=
  (NUM_OF_SEGMENTS : Int) - ((SEGS_PER_DIGIT : Int) + digit * (SEGS_PER_DIGIT : Int))

/-- Segment indices that one setDigit(digit, value) call turns off in the
segmented (TwoTone or TempHumid) branch: base index plus each blanked offset. -/
def setDigitOffSegments (digit : Int) (value : Nat) : List Int :=
  (segmentsToBlank value).map (fun off => digitIndexOf digit + off)

/-- The three mode flags that drive wiring and rendering decisions
(inSecsMinsMode and inManualMode only select the value source). -/
structure ModeFlags where
  inTwoToneMode : Bool
  inSeriesMode : Bool
  inTempHumidMode : Bool
deriving DecidableEq

/-- One WS2812FX segment record, restricted to the properties the usermod
reads or writes: colors[0..2], effect mode, speed, intensity, palette and
option 0 (the on/off option cleared by turnOffSeg). -/
structure Segment where
  color0 : Nat
  color1 : Nat
  color2 : Nat
  mode : Nat
  speed : Nat
  intensity : Nat
  palette : Nat
  option0 : Bool
deriving DecidableEq

/-- turnOffSeg writes the three colors of the segment to black 0x000000 and
clears option 0. -/
def turnOffSeg (seg : Segment) : Segment :=
  { seg with color0 := 0, color1 := 0, color2 := 0, option0 := false }

/-- Effect of one setDigit(digit, value) call on the per-segment display
state: in the segmented branch (inTwoToneMode or inTempHumidMode) every
segment whose index is in setDigitOffSegments is turned off by turnOffSeg,
every other segment is left unchanged. -/
def setDigit (f : ModeFlags) (state : Int → Segment) (digit : Int) (value : Nat) :
    Int → Segment :=
  fun s =>
    if (f.inTwoToneMode || f.inTempHumidMode) = true ∧ s ∈ setDigitOffSegments digit value then
      turnOffSeg (state s)
    else state s

/-- Claim C1: for every value 0..9 the DIGITS glyph lookup yields exactly the
documented blank-offset sets, every offset lies in 0..6, and the table has
exactly 10 entries. -/
theorem c1_glyph_table :
    segmentsToBlank 0 = [3] ∧ segmentsToBlank 1 = [1, 2, 3, 5, 6] ∧
    segmentsToBlank 2 = [0, 6] ∧ segmentsToBlank 3 = [2, 6] ∧
    segmentsToBlank 4 = [1, 2, 5] ∧ segmentsToBlank 5 = [2, 4] ∧
    segmentsToBlank 6 = [4] ∧ segmentsToBlank 7 = [1, 2, 3, 6] ∧
    segmentsToBlank 8 = [] ∧ segmentsToBlank 9 = [2] ∧
    (∀ v, v < 10 → ∀ off ∈ segmentsToBlank v, 0 ≤ off ∧ off ≤ 6) ∧
    DIGITS.length = 10 := by
  decide

/-- Claim C2: setDigit computes the digit base index as 28 - 7*(digit+1) and,
in the segmented modes, turns off exactly the segments base+offset for the
offsets blanked for the value, leaving every other segment unchanged; for
value 0 at digit position 0 (base 21) only the segment at offset 3, index 24,
is blanked. -/
theorem c2_setDigit_frame (f : ModeFlags) (state : Int → Segment) (digit : Int) (value : Nat)
    (hmode : f.inTwoToneMode = true ∨ f.inTempHumidMode = true) :
    digitIndexOf digit = 28 - 7 * (digit + 1)
    ∧ setDigitOffSegments digit value
        = (segmentsToBlank value).map (fun off => digitIndexOf digit + off)
    ∧ (∀ s ∈ setDigitOffSegments digit value,
        setDigit f state digit value s = turnOffSeg (state s))
    ∧ (∀ s ∉ setDigitOffSegments digit value, setDigit f state digit value s = state s)
    ∧ setDigitOffSegments 0 0 = [24] := by
  have hb : (f.inTwoToneMode || f.inTempHumidMode) = true := by
    rcases hmode with h | h <;> simp [h]
  refine ⟨?_, rfl, ?_, ?_, by decide⟩
  · simp only [digitIndexOf, NUM_OF_SEGMENTS, SEGS_PER_DIGIT]
    push_cast
    ring
  · intro s hs
    simp only [setDigit]
    rw [if_pos ⟨hb, hs⟩]
  · intro s hs
    simp only [setDigit]
    rw [if_neg]
    rintro ⟨-, hmem⟩
    exact hs hmem

/-- Claim C2 witness: applied in TwoTone mode at digit 0, value 0. -/
theorem c2_setDigit_frame_witness : setDigitOffSegments 0 0 = [24] :=
  (c2_setDigit_frame ⟨true, false, false⟩ (fun _ => ⟨1, 1, 1, 0, 0, 0, 0, true⟩) 0 0
    (Or.inl rfl)).2.2.2.2

/-- The sensor-related mutable state: the millis stamp of the last actual
DHT11 read and the cached temperature and humidity. -/
structure SensorState where
  lastDHT11TimeRead : Nat
  currentTemp : Int
  currentHumid : Int
deriving DecidableEq

/-- Time between each DHT11 reading in ms (source constant dht11ReadingDelay). -/
def dht11ReadingDelay : Nat := 10000

/-- readTempAndHumid: when (millis() - lastDHT11TimeRead) > dht11ReadingDelay,
record the current time and store fresh sensor values; otherwise leave the
cached state untouched. `now` is the current millis value and `sensorTemp`,
`sensorHumid` are what the DHT11 would return if read now. -/
def readTempAndHumid (now : Nat) (sensorTemp sensorHumid : Int) (st : SensorState) :
    SensorState :=
  if now - st.lastDHT11TimeRead > dht11ReadingDelay then
    { lastDHT11TimeRead := now, currentTemp := sensorTemp, currentHumid := sensorHumid }
  else st

/-- Claim C3 counterexample: with the last actual read at time 0 and the call
at time 10000 the elapsed time is exactly 10000 ms, at least the interval, yet
the code keeps the cached values (1, 2) and performs no fresh read, because
its comparison is strict. -/
theorem c3_rate_limit_counterexample :
    (10000 : Nat) - (SensorState.mk 0 1 2).lastDHT11TimeRead ≥ 10000
    ∧ readTempAndHumid 10000 99 98 ⟨0, 1, 2⟩ = ⟨0, 1, 2⟩
    ∧ readTempAndHumid 10000 99 98 ⟨0, 1, 2⟩ ≠ ⟨10000, 99, 98⟩ := by
  decide

/-- Claim C3 as amended: a call at most 10000 ms after the last actual read
returns the cached state unchanged; a call strictly more than 10000 ms after
it performs a fresh read; and whenever the stamp changes (an actual read
happened) the gap to the previous read exceeds 10000 ms, so two actual reads
are never closer together than 10000 ms. -/
theorem c3_rate_limit (now : Nat) (sensorTemp sensorHumid : Int) (st : SensorState) :
    (now - st.lastDHT11TimeRead ≤ dht11ReadingDelay →
      readTempAndHumid now sensorTemp sensorHumid st = st)
    ∧ (now - st.lastDHT11TimeRead > dht11ReadingDelay →
      readTempAndHumid now sensorTemp sensorHumid st
        = ⟨now, sensorTemp, sensorHumid⟩)
    ∧ ((readTempAndHumid now sensorTemp sensorHumid st).lastDHT11TimeRead
          = st.lastDHT11TimeRead
        ∨ (now - st.lastDHT11TimeRead > dht11ReadingDelay
            ∧ (readTempAndHumid now sensorTemp sensorHumid st).lastDHT11TimeRead = now)) := by
  by_cases h : now - st.lastDHT11TimeRead > dht11ReadingDelay
  · exact ⟨fun hle => absurd h (not_lt.mpr hle),
      fun _ => by simp [readTempAndHumid, h],
      Or.inr ⟨h, by simp [readTempAndHumid, h]⟩⟩
  · exact ⟨fun _ => by simp [readTempAndHumid, h],
      fun hgt => absurd hgt h,
      Or.inl (by simp [readTempAndHumid, h])⟩

/-- Operations the usermod issues against the global strip object while
(re)wiring: resetSegments(), setSegment(id, start, stop), and the
getSegments() refresh of the cached segment pointers. -/
inductive StripOp where
  | resetSegments : StripOp
  | setSegment (id start stop : Nat) : StripOp
  | getSegmentsCall : StripOp
deriving DecidableEq

/-- The second loop of setSegments, carrying the mutable segStart and segEnd
accumulators that advance by addrLedsPerSeg each iteration. -/
def setSegmentsLoop (addrLedsPerSeg : Nat) : Nat → Nat → Nat → Nat → List StripOp
  | 0, _, _, _ => []
  | n + 1, i, segStart, segEnd =>
    StripOp.setSegment (i + NUM_FIRST_LEDS) segStart segEnd ::
      setSegmentsLoop addrLedsPerSeg n (i + 1) (segStart + addrLedsPerSeg)
        (segEnd + addrLedsPerSeg)

/-- setSegments(addrLedsPerSeg, numOfSegments): first the NUM_FIRST_LEDS
one-LED colour-source segments, then numOfSegments contiguous segments of
addrLedsPerSeg LEDs each, starting at LED NUM_FIRST_LEDS. -/
def setSegments (addrLedsPerSeg numOfSegments : Nat) : List StripOp :=
  (List.range NUM_FIRST_LEDS).map (fun i => StripOp.setSegment i i (i + 1)) ++
    setSegmentsLoop addrLedsPerSeg numOfSegments 0 NUM_FIRST_LEDS
      (addrLedsPerSeg + NUM_FIRST_LEDS)

/-- Strip operations performed by the re-wiring block at the end of
readFromConfig, given the previous flag values (the last* shadow copies) and
the freshly parsed flags: a transition into Series resets the segments and
defines one flat segment over all display LEDs; otherwise a transition into
TwoTone or TempHumid rebuilds the segmented wiring with setSegments and
refreshes the cached pointers with getSegments. -/
def readFromConfigWiring (lastFlags flags : ModeFlags) : List StripOp :=
  if flags.inSeriesMode && (lastFlags.inSeriesMode != flags.inSeriesMode) then
    [StripOp.resetSegments,
      StripOp.setSegment 0 NUM_FIRST_LEDS (NUM_FIRST_LEDS + NUM_OF_SEGMENTS * 3)]
  else if (flags.inTwoToneMode && (lastFlags.inTwoToneMode != flags.inTwoToneMode)) ||
      (flags.inTempHumidMode && (lastFlags.inTempHumidMode != flags.inTempHumidMode)) then
    setSegments ADDR_LEDS_PER_SEG NUM_OF_SEGMENTS ++ [StripOp.getSegmentsCall]
  else []

/-- Claim C4 counterexample: on the transition into Series mode the code
issues exactly a reset and one flat segment over LEDs 3..87; none of the three
one-LED colour-source segments (0,0,1), (1,1,2), (2,2,3) is allocated, against
the claim that they are allocated first. -/
theorem c4_series_wiring_counterexample :
    readFromConfigWiring ⟨false, false, false⟩ ⟨false, true, false⟩ =
      [StripOp.resetSegments, StripOp.setSegment 0 3 87]
    ∧ StripOp.setSegment 0 0 1 ∉ readFromConfigWiring ⟨false, false, false⟩ ⟨false, true, false⟩
    ∧ StripOp.setSegment 1 1 2 ∉ readFromConfigWiring ⟨false, false, false⟩ ⟨false, true, false⟩
    ∧ StripOp.setSegment 2 2 3 ∉ readFromConfigWiring ⟨false, false, false⟩ ⟨false, true, false⟩ := by
  decide

/-- Claim C4 as amended: on entry into Series mode the code resets all
segments and then allocates exactly one range, segment 0, from LED
NUM_FIRST_LEDS to NUM_FIRST_LEDS + 28*3, spanning totalSegments *
ledsPerSegment = 84 LEDs treated as a flat pixel array; the 3 one-LED
colour-source ranges are not allocated. -/
theorem c4_series_wiring (lastFlags flags : ModeFlags)
    (hflag : flags.inSeriesMode = true) (hlast : lastFlags.inSeriesMode = false) :
    readFromConfigWiring lastFlags flags =
      [StripOp.resetSegments,
        StripOp.setSegment 0 NUM_FIRST_LEDS (NUM_FIRST_LEDS + NUM_OF_SEGMENTS * 3)]
    ∧ NUM_FIRST_LEDS + NUM_OF_SEGMENTS * 3 - NUM_FIRST_LEDS
        = NUM_OF_SEGMENTS * ADDR_LEDS_PER_SEG
    ∧ (∀ i, StripOp.setSegment i i (i + 1) ∉ readFromConfigWiring lastFlags flags) := by
  have hw : readFromConfigWiring lastFlags flags =
      [StripOp.resetSegments,
        StripOp.setSegment 0 NUM_FIRST_LEDS (NUM_FIRST_LEDS + NUM_OF_SEGMENTS * 3)] := by
    simp [readFromConfigWiring, hflag, hlast]
  refine ⟨hw, by decide, ?_⟩
  intro i
  rw [hw]
  intro hmem
  rcases List.mem_cons.mp hmem with h | h
  · exact StripOp.noConfusion h
  · rcases List.mem_singleton.mp h with h
    have h0 : i = 0 := (StripOp.setSegment.injEq _ _ _ _ _ _).mp h |>.1
    subst h0
    have := (StripOp.setSegment.injEq _ _ _ _ _ _).mp h |>.2.1
    exact absurd this (by decide)

/-- Claim C4 witness: the all-false previous flags and a Series-only update. -/
theorem c4_series_wiring_witness :
    readFromConfigWiring ⟨false, false, false⟩ ⟨false, true, false⟩ =
      [StripOp.resetSegments,
        StripOp.setSegment 0 NUM_FIRST_LEDS (NUM_FIRST_LEDS + NUM_OF_SEGMENTS * 3)] :=
  (c4_series_wiring ⟨false, false, false⟩ ⟨false, true, false⟩ rfl rfl).1

/-- Claim C5 counterexample: in one update where TwoTone transitions to
enabled and Series also transitions to enabled, the code takes the Series
branch only: no segmented re-wiring happens (no getSegments call, and the
issued operations are not the setSegments sequence), against the claim that
enabling TwoTone always triggers segmented re-wiring regardless of the other
flags in the same update. -/
theorem c5_rewire_counterexample :
    readFromConfigWiring ⟨false, false, false⟩ ⟨true, true, false⟩ =
      [StripOp.resetSegments, StripOp.setSegment 0 3 87]
    ∧ readFromConfigWiring ⟨false, false, false⟩ ⟨true, true, false⟩ ≠
        setSegments ADDR_LEDS_PER_SEG NUM_OF_SEGMENTS ++ [StripOp.getSegmentsCall]
    ∧ StripOp.getSegmentsCall ∉ readFromConfigWiring ⟨false, false, false⟩ ⟨true, true, false⟩ := by
  decide

/-- Claim C5 as amended: a transition into Series always performs the flat
re-wiring; a transition into TwoTone or TempHumid performs the segmented
re-wiring (setSegments followed by getSegments) only when Series is not also
transitioning to enabled in the same update, since the Series branch takes
precedence. -/
theorem c5_rewire (lastFlags flags : ModeFlags) :
    (flags.inSeriesMode = true → lastFlags.inSeriesMode = false →
      readFromConfigWiring lastFlags flags =
        [StripOp.resetSegments,
          StripOp.setSegment 0 NUM_FIRST_LEDS (NUM_FIRST_LEDS + NUM_OF_SEGMENTS * 3)])
    ∧ (¬ (flags.inSeriesMode = true ∧ lastFlags.inSeriesMode = false) →
      ((flags.inTwoToneMode = true ∧ lastFlags.inTwoToneMode = false)
          ∨ (flags.inTempHumidMode = true ∧ lastFlags.inTempHumidMode = false)) →
      readFromConfigWiring lastFlags flags =
        setSegments ADDR_LEDS_PER_SEG NUM_OF_SEGMENTS ++ [StripOp.getSegmentsCall]) := by
  rcases lastFlags with ⟨a, b, c⟩
  rcases flags with ⟨d, e, g⟩
  cases a <;> cases b <;> cases c <;> cases d <;> cases e <;> cases g <;> decide

/-- Midpoint NUM_OF_SEGMENTS / 2 used by the two tone and temp-humid modes
(source field midSegmentIndex). -/
def midSegmentIndex : Nat := NUM_OF_SEGMENTS / 2

/-- segCopyProps copies colors[0], the effect mode, speed, intensity and
palette from seg2 onto seg1, leaving the other properties of seg1 alone. -/
def segCopyProps (seg1 seg2 : Segment) : Segment :=
  { seg1 with
    color0 := seg2.color0
    mode := seg2.mode
    speed := seg2.speed
    intensity := seg2.intensity
    palette := seg2.palette }

/-- The loop body of twoTone over the display segments: a segment with index
at least midSegmentIndex copies its properties from firstSeg, the rest copy
from secondSeg. `segs` gives the current state of display segment i. -/
def twoTone (segs : Nat → Segment) (firstSeg secondSeg : Segment) : Nat → Segment :=
  fun i =>
    if i ≥ midSegmentIndex then segCopyProps (segs i) firstSeg
    else segCopyProps (segs i) secondSeg

/-- The loop body of setTempHumidColors over the display segments: a segment
with index at least midSegmentIndex copies from firstSeg when currentTemp > 0
and from secondSeg otherwise; every lower segment copies from thirdSeg. -/
def setTempHumidColors (segs : Nat → Segment) (firstSeg secondSeg thirdSeg : Segment)
    (currentTemp : Int) : Nat → Segment :=
  fun i =>
    if i ≥ midSegmentIndex then
      if currentTemp > 0 then segCopyProps (segs i) firstSeg
      else segCopyProps (segs i) secondSeg
    else segCopyProps (segs i) thirdSeg

/-- Claim C6: in the TwoTone render every segment index of 0..27 copies color,
mode, speed, intensity and palette from the first colour-source segment when
it is at least the midpoint 14 and from the second one otherwise; segment 20
copies from the first source and segment 5 from the second. -/
theorem c6_twoTone_halves (segs : Nat → Segment) (firstSeg secondSeg : Segment) (i : Nat)
    (_hi : i < NUM_OF_SEGMENTS) :
    midSegmentIndex = 14
    ∧ (14 ≤ i → twoTone segs firstSeg secondSeg i = segCopyProps (segs i) firstSeg)
    ∧ (i < 14 → twoTone segs firstSeg secondSeg i = segCopyProps (segs i) secondSeg)
    ∧ (∀ src : Segment, (segCopyProps (segs i) src).color0 = src.color0
        ∧ (segCopyProps (segs i) src).mode = src.mode
        ∧ (segCopyProps (segs i) src).speed = src.speed
        ∧ (segCopyProps (segs i) src).intensity = src.intensity
        ∧ (segCopyProps (segs i) src).palette = src.palette)
    ∧ twoTone segs firstSeg secondSeg 20 = segCopyProps (segs 20) firstSeg
    ∧ twoTone segs firstSeg secondSeg 5 = segCopyProps (segs 5) secondSeg := by
  refine ⟨rfl, ?_, ?_, fun src => ⟨rfl, rfl, rfl, rfl, rfl⟩, ?_, ?_⟩
  · intro h
    simp [twoTone, midSegmentIndex, NUM_OF_SEGMENTS, h]
  · intro h
    simp [twoTone, midSegmentIndex, NUM_OF_SEGMENTS, Nat.not_le.mpr h]
  · simp [twoTone, midSegmentIndex, NUM_OF_SEGMENTS]
  · simp [twoTone, midSegmentIndex, NUM_OF_SEGMENTS]

/-- Claim C6 witness: applied at segment index 20 with distinct sources. -/
theorem c6_twoTone_halves_witness :
    twoTone (fun _ => ⟨0, 0, 0, 0, 0, 0, 0, true⟩) ⟨1, 0, 0, 2, 3, 4, 5, true⟩
        ⟨9, 0, 0, 8, 7, 6, 5, true⟩ 20
      = segCopyProps ⟨0, 0, 0, 0, 0, 0, 0, true⟩ ⟨1, 0, 0, 2, 3, 4, 5, true⟩ :=
  (c6_twoTone_halves (fun _ => ⟨0, 0, 0, 0, 0, 0, 0, true⟩) ⟨1, 0, 0, 2, 3, 4, 5, true⟩
    ⟨9, 0, 0, 8, 7, 6, 5, true⟩ 20 (by decide)).2.2.2.2.1

/-- Claim C7: in the TempHumid render every segment index of 0..27 at or above
the midpoint 14 copies from the first colour source when the current
temperature is strictly positive and from the second otherwise (so at
temperature -3, and at exactly 0, the upper half uses the second); every
segment below the midpoint copies from the third source. -/
theorem c7_tempHumid_halves (segs : Nat → Segment) (firstSeg secondSeg thirdSeg : Segment)
    (currentTemp : Int) (i : Nat) (_hi : i < NUM_OF_SEGMENTS) :
    (14 ≤ i → 0 < currentTemp →
      setTempHumidColors segs firstSeg secondSeg thirdSeg currentTemp i
        = segCopyProps (segs i) firstSeg)
    ∧ (14 ≤ i → ¬ 0 < currentTemp →
      setTempHumidColors segs firstSeg secondSeg thirdSeg currentTemp i
        = segCopyProps (segs i) secondSeg)
    ∧ (i < 14 →
      setTempHumidColors segs firstSeg secondSeg thirdSeg currentTemp i
        = segCopyProps (segs i) thirdSeg)
    ∧ setTempHumidColors segs firstSeg secondSeg thirdSeg (-3) 20
        = segCopyProps (segs 20) secondSeg
    ∧ setTempHumidColors segs firstSeg secondSeg thirdSeg 0 20
        = segCopyProps (segs 20) secondSeg
    ∧ setTempHumidColors segs firstSeg secondSeg thirdSeg (-3) 5
        = segCopyProps (segs 5) thirdSeg := by
  refine ⟨?_, ?_, ?_, ?_, ?_, ?_⟩
  · intro h ht
    simp [setTempHumidColors, midSegmentIndex, NUM_OF_SEGMENTS, h, ht]
  · intro h ht
    simp [setTempHumidColors, midSegmentIndex, NUM_OF_SEGMENTS, h, ht]
  · intro h
    simp [setTempHumidColors, midSegmentIndex, NUM_OF_SEGMENTS, Nat.not_le.mpr h]
  · simp [setTempHumidColors, midSegmentIndex, NUM_OF_SEGMENTS]
  · simp [setTempHumidColors, midSegmentIndex, NUM_OF_SEGMENTS]
  · simp [setTempHumidColors, midSegmentIndex, NUM_OF_SEGMENTS]

/-- Claim C7 witness: applied at segment index 20 with temperature -3. -/
theorem c7_tempHumid_halves_witness :
    setTempHumidColors (fun _ => ⟨0, 0, 0, 0, 0, 0, 0, true⟩) ⟨1, 0, 0, 2, 3, 4, 5, true⟩
        ⟨9, 0, 0, 8, 7, 6, 5, true⟩ ⟨4, 0, 0, 3, 2, 1, 0, true⟩ (-3) 20
      = segCopyProps ⟨0, 0, 0, 0, 0, 0, 0, true⟩ ⟨9, 0, 0, 8, 7, 6, 5, true⟩ :=
  (c7_tempHumid_halves (fun _ => ⟨0, 0, 0, 0, 0, 0, 0, true⟩) ⟨1, 0, 0, 2, 3, 4, 5, true⟩
    ⟨9, 0, 0, 8, 7, 6, 5, true⟩ ⟨4, 0, 0, 3, 2, 1, 0, true⟩ (-3) 20 (by decide)).2.2.2.1

/-- Glyph-table row access with the C array bounds made explicit: a row for
values 0..9, and none for any other value, standing for the out-of-bounds
DIGITS[value] access (undefined behavior) the source would perform. -/
def segmentsToBlankChecked (value : Int) : Option (List Int) :=
  if 0 ≤ value ∧ value < (NUM_DIGITS : Int) then some (segmentsToBlank value.toNat)
  else none

/-- Digit values displayTempAndHumid passes to setDigit: C truncated division
and remainder of the raw cached temperature and humidity, with no clamping. -/
def tempHumidDigitValues (currentTemp currentHumid : Int) : List Int :=
  [currentTemp.tdiv 10, currentTemp.tmod 10, currentHumid.tdiv 10, currentHumid.tmod 10]

/-- Digit values displayTime passes to setDigit in clock mode (not manual, not
secs-mins): hour then minute, each split into tens and units. -/
def clockDigitValues (currentHour currentMin : Nat) : List Nat :=
  [currentHour / 10, currentHour % 10, currentMin / 10, currentMin % 10]

/-- Digit values displayTime passes to setDigit in the secs-mins mode. -/
def secsMinsDigitValues (currentMin currentSec : Nat) : List Nat :=
  [currentMin / 10, currentMin % 10, currentSec / 10, currentSec % 10]

/-- Digit values displayTime passes to setDigit in manual mode: the four
configured values, forwarded without validation. -/
def manualDigitValues (digit0Value digit1Value digit2Value digit3Value : Int) : List Int :=
  [digit0Value, digit1Value, digit2Value, digit3Value]

/-- Every digit value below 10 indexes the glyph table in bounds. -/
theorem segmentsToBlankChecked_inBounds :
    ∀ v : Nat, v < 10 → segmentsToBlankChecked (v : Int) ≠ none := by
  decide

/-- Claim C8 counterexample: with the cached temperature -3 (a valid winter
reading) and humidity 50, displayTempAndHumid computes the digit values
[0, -3, 5, 0] with C truncated division and passes -3, which is outside 0..9,
straight into the glyph lookup: the table access is out of bounds, so the
boundary does not clamp or reject. -/
theorem c8_clamping_counterexample :
    tempHumidDigitValues (-3) 50 = [0, -3, 5, 0]
    ∧ ¬ (0 ≤ (-3 : Int) ∧ (-3 : Int) < (NUM_DIGITS : Int))
    ∧ segmentsToBlankChecked (-3) = none := by
  decide

/-- Claim C8 as amended: the time render paths only ever pass digit values
0..9 into the glyph lookup (hour below 24, minute and second below 60 give
tens and units below 10, all in bounds), but the temperature/humidity path and
the manual path forward their values without clamping or rejection, so an
out-of-range value such as temperature -3 reaches the glyph table out of
bounds. -/
theorem c8_digit_clamping (currentHour currentMin currentSec : Nat)
    (t h d0 d1 d2 d3 : Int)
    (hh : currentHour < 24) (hm : currentMin < 60) (hs : currentSec < 60) :
    (∀ v ∈ clockDigitValues currentHour currentMin,
      v < 10 ∧ segmentsToBlankChecked (v : Int) ≠ none)
    ∧ (∀ v ∈ secsMinsDigitValues currentMin currentSec,
      v < 10 ∧ segmentsToBlankChecked (v : Int) ≠ none)
    ∧ tempHumidDigitValues t h = [t.tdiv 10, t.tmod 10, h.tdiv 10, h.tmod 10]
    ∧ manualDigitValues d0 d1 d2 d3 = [d0, d1, d2, d3]
    ∧ (-3 : Int) ∈ tempHumidDigitValues (-3) 50
    ∧ segmentsToBlankChecked (-3) = none := by
  refine ⟨?_, ?_, rfl, rfl, by decide, by decide⟩
  · intro v hv
    simp only [clockDigitValues, List.mem_cons, List.not_mem_nil, or_false] at hv
    have hlt : v < 10 := by rcases hv with rfl | rfl | rfl | rfl <;> omega
    exact ⟨hlt, segmentsToBlankChecked_inBounds v hlt⟩
  · intro v hv
    simp only [secsMinsDigitValues, List.mem_cons, List.not_mem_nil, or_false] at hv
    have hlt : v < 10 := by rcases hv with rfl | rfl | rfl | rfl <;> omega
    exact ⟨hlt, segmentsToBlankChecked_inBounds v hlt⟩

/-- Claim C8 witness: applied at hour 23, minute 59, second 58, temperature -3
and humidity 50. -/
theorem c8_digit_clamping_witness :
    (∀ v ∈ clockDigitValues 23 59, v < 10 ∧ segmentsToBlankChecked (v : Int) ≠ none)
    ∧ segmentsToBlankChecked (-3) = none :=
  ⟨(c8_digit_clamping 23 59 58 (-3) 50 0 0 0 0 (by decide) (by decide) (by decide)).1,
    (c8_digit_clamping 23 59 58 (-3) 50 0 0 0 0 (by decide) (by decide)
      (by decide)).2.2.2.2.2⟩

/-- Claim C9: for every value 0..9 the stored DIGITS row is 28 entries wide,
holds the -1 sentinel within its first SEGS_PER_DIGIT = 7 entries, and the
setDigit loop, though bounded by 10 reads over the zero-padded row, stops at
that sentinel: it collects exactly the entries of the written initializer row
before the first -1, so the zero padding is never reached and no spurious
offset-0 segment is turned off. -/
theorem c9_sentinel_scan (v : Nat) (hv : v < 10) :
    (DIGITS.getD v []).length = NUM_OF_SEGMENTS
    ∧ (-1 : Int) ∈ (DIGITS.getD v []).take SEGS_PER_DIGIT
    ∧ segmentsToBlank v = (DIGITS_rows.getD v []).takeWhile (fun x => !(x == -1))
    ∧ segmentsToBlank v = (DIGITS.getD v []).takeWhile (fun x => !(x == -1)) := by
  revert v
  decide

/-- Claim C9 witness: the row of digit value 1. -/
theorem c9_sentinel_scan_witness :
    (DIGITS.getD 1 []).length = NUM_OF_SEGMENTS
    ∧ (-1 : Int) ∈ (DIGITS.getD 1 []).take SEGS_PER_DIGIT
    ∧ segmentsToBlank 1 = (DIGITS_rows.getD 1 []).takeWhile (fun x => !(x == -1))
    ∧ segmentsToBlank 1 = (DIGITS.getD 1 []).takeWhile (fun x => !(x == -1)) :=
  c9_sentinel_scan 1 (by decide)

/-- The per-frame render paths of the usermod. -/
inductive RenderPath where
  | twoTonePath : RenderPath
  | tempHumidPath : RenderPath
  | seriesPath : RenderPath
deriving DecidableEq

/-- Render paths one loop() call takes: twoTone when inTwoToneMode, otherwise
displayTempAndHumid when inTempHumidMode, otherwise none. -/
def loopPaths (f : ModeFlags) : List RenderPath :=
  if f.inTwoToneMode then [RenderPath.twoTonePath]
  else if f.inTempHumidMode then [RenderPath.tempHumidPath]
  else []

/-- Render paths one handleOverlayDraw() call takes: inSeries when
inSeriesMode, otherwise none. -/
def overlayDrawPaths (f : ModeFlags) : List RenderPath :=
  if f.inSeriesMode then [RenderPath.seriesPath] else []

/-- Claim C10: when both TwoTone and TempHumid are set, a loop() call runs
only the TwoTone path and never the TempHumid path, by fixed TwoTone-first
precedence; when TwoTone, TempHumid and Series are all disabled, neither
loop() nor handleOverlayDraw() runs any render path. -/
theorem c10_mode_precedence (f : ModeFlags) :
    (f.inTwoToneMode = true ∧ f.inTempHumidMode = true →
      loopPaths f = [RenderPath.twoTonePath] ∧ RenderPath.tempHumidPath ∉ loopPaths f)
    ∧ (f.inTwoToneMode = false ∧ f.inSeriesMode = false ∧ f.inTempHumidMode = false →
      loopPaths f = [] ∧ overlayDrawPaths f = []) := by
  rcases f with ⟨a, b, c⟩
  cases a <;> cases b <;> cases c <;> decide

end NanoLeafDisplay
